import Mathlib

/-!
Verification of the partition-planning core of `make_alpine_rpi`.

The embedding models:
  * `block_device_info` (util.py): reads five sysfs facts about a block
    device and derives the alignment boundary.  Each sysfs file is modelled
    as an `Option Nat` (present with a value, or absent); opening an absent
    file raises, modelled as a `missingField` error.  A zero
    `physical_block_size` makes the boundary division raise
    `ZeroDivisionError`, modelled as a `zeroDivision` error.
  * the planning portion of `partition_device` (make_alpine_rpi.py,
    lines 170-198): pure sector arithmetic from the geometry plus the
    hard-coded policy constants, producing offsets, sizes and the rendered
    parted directive string.  The modulo by `alignment_boundary_sectors`
    raises `ZeroDivisionError` when that value is zero, again modelled as a
    `zeroDivision` error (the check is hoisted before the arithmetic; the
    observable result, error versus plan, is unchanged).

Python `int(a / b)` on the nonnegative integer inputs involved here is
floor division, modelled with `Nat` division.
-/

/-- The sysfs facts `block_device_info` reads for one device, in read
order; `none` means the corresponding file is absent. -/
structure SysfsQueue where
  size : Option Nat
  optimal_io_size : Option Nat
  minimum_io_size : Option Nat
  alignment_offset : Option Nat
  physical_block_size : Option Nat
deriving Repr, DecidableEq

/-- How a geometry read or a planning run fails: a mandatory sysfs file is
absent (Python `FileNotFoundError` from `open`), or an integer division or
modulo has a zero divisor (Python `ZeroDivisionError`). -/
inductive GeomError where
  | missingField : String → GeomError
  | zeroDivision : GeomError
deriving Repr, DecidableEq

/-- The dictionary `block_device_info` returns (util.py lines 63-103). -/
structure BlockVals where
  size : Nat
  optimal_io_size : Nat
  minimum_io_size : Nat
  alignment_offset : Nat
  physical_block_size : Nat
  alignment_boundary : Nat
  alignment_boundary_sectors : Nat
  first_partition_offset_sectors : Nat
deriving Repr, DecidableEq

/-- `block_device_info` (util.py lines 63-103): reads size,
optimal_io_size and minimum_io_size (mandatory), alignment_offset
(defaults to 0 when the file is absent) and physical_block_size
(mandatory); derives `alignment_boundary` as 1 MiB when
`optimal_io_size == 0` and `optimal_io_size + alignment_offset` otherwise,
and divides it by `physical_block_size` for the two sector-valued derived
fields. -/
def block_device_info (q : SysfsQueue) : Except GeomError BlockVals :=
  match q.size with
  | none => .error (.missingField "size")
  | some size =>
    match q.optimal_io_size with
    | none => .error (.missingField "optimal_io_size")
    | some optimal_io_size =>
      match q.minimum_io_size with
      | none => .error (.missingField "minimum_io_size")
      | some minimum_io_size =>
        let alignment_offset := q.alignment_offset.getD 0
        match q.physical_block_size with
        | none => .error (.missingField "physical_block_size")
        | some physical_block_size =>
          let alignment_boundary :=
            if optimal_io_size = 0 then 1024 * 1024
            else optimal_io_size + alignment_offset
          if physical_block_size = 0 then .error .zeroDivision
          else
            .ok ⟨size, optimal_io_size, minimum_io_size, alignment_offset,
                 physical_block_size, alignment_boundary,
                 alignment_boundary / physical_block_size,
                 alignment_boundary / physical_block_size⟩

/-- The quantities `partition_device` computes (make_alpine_rpi.py lines
170-198), named after its local variables, plus the rendered parted
directive string. -/
structure PartitionPlanOut where
  sd_part0_size_sectors : Nat
  sd_part1_offset_sectors : Nat
  sd_part1_size_sectors : Nat
  sd_part2_alignment_remainder : Nat
  sd_part2_alignment_fix : Nat
  sd_part2_offset_sectors : Nat
  sd_part2_size_sectors : Int
  parted_script : String
deriving Repr, DecidableEq

/-- The planning portion of `partition_device` (make_alpine_rpi.py lines
170-198): the local policy constants `sd_part0_size = 1024` bytes and
`sd_part1_size_bytes = 256 MiB`, the alignment fix for the second
partition, and the parted script string built by successive
concatenation.  Divisions by `physical_block_size` and the modulo by
`alignment_boundary_sectors` raise on a zero divisor, so those two error
cases are checked up front. -/
def partition_device_plan (total_size_sectors : Nat) (info : BlockVals) :
    Except GeomError PartitionPlanOut :=
  if info.physical_block_size = 0 then .error .zeroDivision
  else if info.alignment_boundary_sectors = 0 then .error .zeroDivision
  else
    let sd_part0_size : Nat := 1024
    let sd_part0_size_sectors := sd_part0_size / info.physical_block_size
    let sd_part1_offset_sectors := info.first_partition_offset_sectors
    let sd_part1_size_bytes : Nat := 256 * 1024 * 1024
    let sd_part1_size_sectors := sd_part1_size_bytes / info.physical_block_size
    let sd_part2_alignment_remainder :=
      (sd_part0_size_sectors + sd_part1_size_sectors) %
        info.alignment_boundary_sectors
    let sd_part2_alignment_fix :=
      info.alignment_boundary_sectors - sd_part2_alignment_remainder
    let sd_part2_offset_sectors :=
      sd_part0_size_sectors + sd_part1_size_sectors + sd_part2_alignment_fix
    let sd_part2_size_sectors : Int :=
      (total_size_sectors : Int) - (sd_part0_size_sectors : Int) -
        (sd_part1_size_sectors : Int)
    let parted_script :=
      "mklabel msdos " ++
      ("mkpart primary fat32 " ++ toString sd_part1_offset_sectors ++ "s " ++
        toString sd_part1_size_sectors ++ "s ") ++
      ("mkpart primary ext4 " ++ toString sd_part2_offset_sectors ++ "s " ++
        toString sd_part2_size_sectors ++ "s ") ++
      "set 1 boot on " ++
      "set 1 lba on "
    .ok ⟨sd_part0_size_sectors, sd_part1_offset_sectors,
         sd_part1_size_sectors, sd_part2_alignment_remainder,
         sd_part2_alignment_fix, sd_part2_offset_sectors,
         sd_part2_size_sectors, parted_script⟩

/-- The full planning run of `partition_device`: read the geometry via
`block_device_info`, re-read the device size via
`block_device_size_sectors` (the same sysfs `size` file), then plan. -/
def partition_device_run (q : SysfsQueue) : Except GeomError PartitionPlanOut := do
  let info ← block_device_info q
  match q.size with
  | none => .error (.missingField "size")
  | some total_size_sectors => partition_device_plan total_size_sectors info

/-- Every successful geometry read has these shapes: `alignment_boundary`
is 1 MiB when `optimal_io_size` is zero and `optimal_io_size +
alignment_offset` otherwise; the sector-valued fields are the boundary
floor-divided by `physical_block_size`; and `physical_block_size` is
nonzero. -/
theorem block_device_info_ok_shape (q : SysfsQueue) (info : BlockVals)
    (h : block_device_info q = .ok info) :
    (info.optimal_io_size = 0 → info.alignment_boundary = 1024 * 1024) ∧
    (info.optimal_io_size ≠ 0 →
      info.alignment_boundary = info.optimal_io_size + info.alignment_offset) ∧
    info.alignment_boundary_sectors =
      info.alignment_boundary / info.physical_block_size ∧
    info.first_partition_offset_sectors = info.alignment_boundary_sectors ∧
    info.physical_block_size ≠ 0 ∧
    info.alignment_offset = q.alignment_offset.getD 0 := by
  obtain ⟨s, o, m, a, p⟩ := q
  cases s <;> cases o <;> cases m <;> cases p <;>
    simp only [block_device_info] at h <;>
    try exact Except.noConfusion h
  rename_i s o m p
  by_cases hp : p = 0
  · simp [hp] at h
  · rw [if_neg hp] at h
    injection h with h
    subst h
    by_cases ho : o = 0 <;> simp_all

/-- C1: the derived alignment boundary of every geometry the reader
returns is 1 MiB when `optimal_io_size` is zero (regardless of
`alignment_offset`) and `optimal_io_size + alignment_offset` otherwise,
and `alignment_boundary_sectors` is the floor of
`alignment_boundary / physical_block_size`. -/
theorem alignment_boundary_correct (q : SysfsQueue) (info : BlockVals)
    (h : block_device_info q = .ok info) :
    (info.optimal_io_size = 0 → info.alignment_boundary = 1048576) ∧
    (info.optimal_io_size ≠ 0 →
      info.alignment_boundary = info.optimal_io_size + info.alignment_offset) ∧
    info.alignment_boundary_sectors =
      info.alignment_boundary / info.physical_block_size := by
  obtain ⟨h1, h2, h3, _, _⟩ := block_device_info_ok_shape q info h
  exact ⟨h1, h2, h3⟩

/-- The sysfs readings of the concrete scenario for C1:
`optimal_io_size=4096`, `alignment_offset=0`, `physical_block_size=512`. -/
def q_c1 : SysfsQueue := ⟨some 1000000, some 4096, some 0, some 0, some 512⟩

/-- The geometry the reader derives from `q_c1`. -/
def info_c1 : BlockVals := ⟨1000000, 4096, 0, 0, 512, 4096, 8, 8⟩

/-- C1 witness: on the concrete scenario the boundary is
`4096 + 0 = 4096` bytes and `alignment_boundary_sectors = 8`. -/
theorem alignment_boundary_correct_witness :
    ((info_c1.optimal_io_size = 0 → info_c1.alignment_boundary = 1048576) ∧
     (info_c1.optimal_io_size ≠ 0 →
       info_c1.alignment_boundary =
         info_c1.optimal_io_size + info_c1.alignment_offset) ∧
     info_c1.alignment_boundary_sectors =
       info_c1.alignment_boundary / info_c1.physical_block_size) ∧
    block_device_info q_c1 = .ok info_c1 ∧
    info_c1.alignment_boundary_sectors = 8 :=
  ⟨alignment_boundary_correct q_c1 info_c1 (by rfl), by rfl, by decide⟩

/-- Every successful planning computation has exactly the shapes of
make_alpine_rpi.py lines 175-197: label sectors from 1024 bytes, boot at
the device's first-partition offset with 256 MiB of sectors, the alignment
remainder and fix, the root offset including the fix, the root size
excluding it, and the rendered parted script; moreover both divisors were
nonzero. -/
theorem partition_device_plan_ok_shape (total : Nat) (info : BlockVals)
    (p : PartitionPlanOut) (h : partition_device_plan total info = .ok p) :
    info.physical_block_size ≠ 0 ∧
    info.alignment_boundary_sectors ≠ 0 ∧
    p.sd_part0_size_sectors = 1024 / info.physical_block_size ∧
    p.sd_part1_offset_sectors = info.first_partition_offset_sectors ∧
    p.sd_part1_size_sectors = 268435456 / info.physical_block_size ∧
    p.sd_part2_alignment_remainder =
      (p.sd_part0_size_sectors + p.sd_part1_size_sectors) %
        info.alignment_boundary_sectors ∧
    p.sd_part2_alignment_fix =
      info.alignment_boundary_sectors - p.sd_part2_alignment_remainder ∧
    p.sd_part2_offset_sectors =
      p.sd_part0_size_sectors + p.sd_part1_size_sectors +
        p.sd_part2_alignment_fix ∧
    p.sd_part2_size_sectors =
      (total : Int) - (p.sd_part0_size_sectors : Int) -
        (p.sd_part1_size_sectors : Int) ∧
    p.parted_script =
      "mklabel msdos " ++
      ("mkpart primary fat32 " ++ toString p.sd_part1_offset_sectors ++
        "s " ++ toString p.sd_part1_size_sectors ++ "s ") ++
      ("mkpart primary ext4 " ++ toString p.sd_part2_offset_sectors ++
        "s " ++ toString p.sd_part2_size_sectors ++ "s ") ++
      "set 1 boot on " ++
      "set 1 lba on " := by
  unfold partition_device_plan at h
  by_cases hp : info.physical_block_size = 0
  · rw [if_pos hp] at h
    exact Except.noConfusion h
  · rw [if_neg hp] at h
    by_cases hb : info.alignment_boundary_sectors = 0
    · rw [if_pos hb] at h
      exact Except.noConfusion h
    · rw [if_neg hb] at h
      injection h with h
      subst h
      exact ⟨hp, hb, rfl, rfl, rfl, rfl, rfl, rfl, rfl, rfl⟩

/-- The sysfs readings of a 100-sector device with
`physical_block_size=512` and unreported `optimal_io_size`: far too small
for the 256 MiB boot partition. -/
def q_small : SysfsQueue := ⟨some 100, some 0, some 0, some 0, some 512⟩

/-- The geometry the reader derives from `q_small`. -/
def info_small : BlockVals := ⟨100, 0, 0, 0, 512, 1048576, 2048, 2048⟩

/-- C2 counterexample: on the 100-sector device (where
`boot_size_sectors + label_sectors = 524288 + 2 > 100`) the planner does
NOT fail; it returns a plan whose root size is the negative number
`100 - 2 - 524288 = -524190`. -/
theorem no_insufficient_capacity_failure :
    (partition_device_run q_small).isOk = true ∧
    (partition_device_run q_small).toOption.map
        PartitionPlanOut.sd_part2_size_sectors = some (-524190) ∧
    524288 + 2 > 100 ∧ (-524190 : Int) < 0 :=
  ⟨rfl, rfl, by decide, by decide⟩

/-- C2 amended: the planner performs no capacity validation at all.  For
every geometry with nonzero `physical_block_size` and nonzero
`alignment_boundary_sectors` it emits a plan — even when
`root_size_sectors <= 0` or `boot_size_sectors + label_sectors >
total_size_sectors` — whose root size is `total - label - boot` as a
possibly negative integer. -/
theorem planner_always_emits_plan (total : Nat) (info : BlockVals)
    (hp : info.physical_block_size ≠ 0)
    (hb : info.alignment_boundary_sectors ≠ 0) :
    (partition_device_plan total info).isOk = true ∧
    (partition_device_plan total info).toOption.map
        PartitionPlanOut.sd_part2_size_sectors =
      some ((total : Int) - ((1024 / info.physical_block_size : Nat) : Int) -
        ((268435456 / info.physical_block_size : Nat) : Int)) := by
  unfold partition_device_plan
  rw [if_neg hp, if_neg hb]
  exact ⟨rfl, rfl⟩

/-- C2 amended witness: on the concrete 100-sector geometry the plan is
emitted and its root size is negative. -/
theorem planner_always_emits_plan_witness :
    ((partition_device_plan 100 info_small).isOk = true ∧
     (partition_device_plan 100 info_small).toOption.map
         PartitionPlanOut.sd_part2_size_sectors =
       some ((100 : Int) - ((1024 / info_small.physical_block_size : Nat) : Int) -
         ((268435456 / info_small.physical_block_size : Nat) : Int))) ∧
    (100 : Int) - ((1024 / info_small.physical_block_size : Nat) : Int) -
        ((268435456 / info_small.physical_block_size : Nat) : Int) = -524190 :=
  ⟨planner_always_emits_plan 100 info_small (by decide) (by decide), by decide⟩

/-- The sysfs readings of a device whose alignment boundary (10 sectors)
exactly divides `label_sectors + boot_size_sectors = 2 + 524288`:
`optimal_io_size=5120`, `physical_block_size=512`. -/
def q_rem0 : SysfsQueue := ⟨some 10000000, some 5120, some 0, some 0, some 512⟩

/-- The geometry the reader derives from `q_rem0`. -/
def info_rem0 : BlockVals := ⟨10000000, 5120, 0, 0, 512, 5120, 10, 10⟩

/-- C3 counterexample: on `q_rem0` the alignment remainder is 0 but the
alignment padding is a FULL boundary (10 sectors, not 0), so the root
offset is `label + boot + 10 = 524300`, not `label + boot = 524290`. -/
theorem padding_not_zero_on_zero_remainder :
    (partition_device_run q_rem0).toOption.map
        (fun p => (p.sd_part2_alignment_remainder, p.sd_part2_alignment_fix,
          p.sd_part2_offset_sectors)) = some (0, 10, 524300) ∧
    (10 : Nat) ≠ 0 ∧ (524300 : Nat) ≠ 2 + 524288 :=
  ⟨rfl, by decide, by decide⟩

/-- C3 amended: the code computes the padding as
`alignment_boundary_sectors - raw_remainder` unconditionally, so a zero
remainder yields a FULL boundary of padding and the root offset is
`label_sectors + boot_size_sectors + alignment_boundary_sectors` in that
case, not `label_sectors + boot_size_sectors`. -/
theorem padding_full_boundary_on_zero_remainder (total : Nat)
    (info : BlockVals) (p : PartitionPlanOut)
    (h : partition_device_plan total info = .ok p)
    (hr : p.sd_part2_alignment_remainder = 0) :
    p.sd_part2_alignment_fix = info.alignment_boundary_sectors ∧
    p.sd_part2_offset_sectors =
      p.sd_part0_size_sectors + p.sd_part1_size_sectors +
        info.alignment_boundary_sectors := by
  obtain ⟨-, -, -, -, -, -, hfix, hoff, -, -⟩ :=
    partition_device_plan_ok_shape total info p h
  have h1 : p.sd_part2_alignment_fix = info.alignment_boundary_sectors := by
    rw [hfix, hr, Nat.sub_zero]
  exact ⟨h1, by rw [hoff, h1]⟩

/-- The plan `partition_device` computes on `q_rem0`. -/
def plan_rem0 : PartitionPlanOut :=
  ⟨2, 10, 524288, 0, 10, 524300, 9475710,
   "mklabel msdos mkpart primary fat32 10s 524288s mkpart primary ext4 524300s 9475710s set 1 boot on set 1 lba on "⟩

/-- C3 amended witness: on the concrete geometry `info_rem0` the padding
is the full 10-sector boundary. -/
theorem padding_full_boundary_on_zero_remainder_witness :
    plan_rem0.sd_part2_alignment_fix = info_rem0.alignment_boundary_sectors ∧
    plan_rem0.sd_part2_offset_sectors =
      plan_rem0.sd_part0_size_sectors + plan_rem0.sd_part1_size_sectors +
        info_rem0.alignment_boundary_sectors :=
  padding_full_boundary_on_zero_remainder 10000000 info_rem0 plan_rem0
    (by rfl) (by rfl)

/-- C4: on any device with `physical_block_size=512` the planner reserves
only 2 sectors (1024 bytes) for the label region — its local constant is
`sd_part0_size = 1024` — although the code's own comment, and the
1 MiB / 2048-sector figure, call for `1048576 / 512 = 2048` sectors. -/
theorem label_region_is_1024_bytes :
    (partition_device_run q_small).toOption.map
        PartitionPlanOut.sd_part0_size_sectors = some 2 ∧
    (2 : Nat) ≠ 1048576 / 512 ∧ (1048576 / 512 : Nat) = 2048 :=
  ⟨rfl, by decide, by decide⟩

/-- Rounding a value up to the next multiple of `b` by adding
`b - value % b` lands on a multiple of `b`. -/
theorem add_boundary_sub_mod (a b : Nat) (hb : b ≠ 0) :
    (a + (b - a % b)) % b = 0 := by
  by_cases h0 : a % b = 0
  · rw [h0, Nat.sub_zero, Nat.add_mod_right]
    exact h0
  · have h2 : a % b < b := Nat.mod_lt a (Nat.pos_of_ne_zero hb)
    rw [Nat.add_mod, Nat.mod_eq_of_lt (show b - a % b < b by omega),
      show a % b + (b - a % b) = b by omega, Nat.mod_self]

/-- The plan `partition_device` computes on `q_small`. -/
def plan_small : PartitionPlanOut :=
  ⟨2, 2048, 524288, 2, 2046, 526336, -524190,
   "mklabel msdos mkpart primary fat32 2048s 524288s mkpart primary ext4 526336s -524190s set 1 boot on set 1 lba on "⟩

/-- C5: the root size of every plan is exactly
`total_size_sectors - label_sectors - boot_size_sectors`; the alignment
padding goes into the root offset but is not subtracted from the root
size, so root offset + root size is `total + padding`, exceeding the
device by the padding, which is at most one alignment boundary. -/
theorem root_size_ignores_padding (total : Nat) (info : BlockVals)
    (p : PartitionPlanOut) (h : partition_device_plan total info = .ok p) :
    p.sd_part2_size_sectors =
      (total : Int) - (p.sd_part0_size_sectors : Int) -
        (p.sd_part1_size_sectors : Int) ∧
    (p.sd_part2_offset_sectors : Int) + p.sd_part2_size_sectors =
      (total : Int) + (p.sd_part2_alignment_fix : Int) ∧
    p.sd_part2_alignment_fix ≤ info.alignment_boundary_sectors := by
  obtain ⟨-, -, -, -, -, -, hfix, hoff, hsz, -⟩ :=
    partition_device_plan_ok_shape total info p h
  refine ⟨hsz, ?_, ?_⟩
  · rw [hsz, hoff]
    push_cast
    ring
  · rw [hfix]
    exact Nat.sub_le _ _

/-- C5 witness: on the 100-sector geometry the plan's root size is
`100 - 2 - 524288` and offset + size overshoots the device by the
2046-sector padding. -/
theorem root_size_ignores_padding_witness :
    (plan_small.sd_part2_size_sectors =
      (100 : Int) - (plan_small.sd_part0_size_sectors : Int) -
        (plan_small.sd_part1_size_sectors : Int) ∧
    (plan_small.sd_part2_offset_sectors : Int) +
        plan_small.sd_part2_size_sectors =
      (100 : Int) + (plan_small.sd_part2_alignment_fix : Int) ∧
    plan_small.sd_part2_alignment_fix ≤
      info_small.alignment_boundary_sectors) ∧
    plan_small.sd_part2_alignment_fix = 2046 :=
  ⟨root_size_ignores_padding 100 info_small plan_small (by rfl), by decide⟩

/-- C6: in every plan built from a geometry the reader returned, both
partition offsets are multiples of `alignment_boundary_sectors`, and the
boot partition starts at `first_partition_offset_sectors`, which the
reader defines equal to `alignment_boundary_sectors` (the first alignment
boundary, not the end of the label region). -/
theorem partition_offsets_aligned (q : SysfsQueue) (total : Nat)
    (info : BlockVals) (p : PartitionPlanOut)
    (hq : block_device_info q = .ok info)
    (h : partition_device_plan total info = .ok p) :
    p.sd_part1_offset_sectors % info.alignment_boundary_sectors = 0 ∧
    p.sd_part2_offset_sectors % info.alignment_boundary_sectors = 0 ∧
    p.sd_part1_offset_sectors = info.first_partition_offset_sectors ∧
    info.first_partition_offset_sectors = info.alignment_boundary_sectors := by
  obtain ⟨-, -, -, hfirst, -⟩ := block_device_info_ok_shape q info hq
  obtain ⟨-, hb, -, h1off, -, hrem, hfix, hoff, -, -⟩ :=
    partition_device_plan_ok_shape total info p h
  refine ⟨?_, ?_, h1off, hfirst⟩
  · rw [h1off, hfirst, Nat.mod_self]
  · rw [hoff, hfix, hrem]
    exact add_boundary_sub_mod _ _ hb

/-- C6 witness: on the concrete geometry `info_rem0`, both offsets (10 and
524300) are multiples of the 10-sector boundary and the boot partition
starts at the first alignment boundary. -/
theorem partition_offsets_aligned_witness :
    plan_rem0.sd_part1_offset_sectors %
        info_rem0.alignment_boundary_sectors = 0 ∧
    plan_rem0.sd_part2_offset_sectors %
        info_rem0.alignment_boundary_sectors = 0 ∧
    plan_rem0.sd_part1_offset_sectors =
      info_rem0.first_partition_offset_sectors ∧
    info_rem0.first_partition_offset_sectors =
      info_rem0.alignment_boundary_sectors :=
  partition_offsets_aligned q_rem0 10000000 info_rem0 plan_rem0
    (by rfl) (by rfl)

/-- The sysfs readings of a device with `physical_block_size=4096` and
`optimal_io_size=12288`: the alignment boundary is 3 sectors, the label
region rounds down to 0 sectors. -/
def q_overlap : SysfsQueue :=
  ⟨some 10000000, some 12288, some 0, some 0, some 4096⟩

/-- C7 counterexample: on `q_overlap` the boot partition ends at sector
`3 + 65536 = 65539` but the root partition starts at sector 65538 — the
two entries overlap, refuting the claimed non-overlap invariant. -/
theorem partitions_overlap_on_4096_geometry :
    (partition_device_run q_overlap).toOption.map
        (fun p => (p.sd_part1_offset_sectors + p.sd_part1_size_sectors,
          p.sd_part2_offset_sectors)) = some (65539, 65538) ∧
    ¬((65539 : Nat) ≤ 65538) :=
  ⟨rfl, by decide⟩

/-- C7 amended: non-overlap is not guaranteed.  The gap from boot end to
root start is exactly `label_sectors - raw_remainder` (as integers), so
the two entries are non-overlapping precisely when the alignment
remainder is at most `label_sectors`; the planner can otherwise place the
root start before the boot end, as on the counterexample geometry. -/
theorem no_overlap_iff_remainder_le_label (q : SysfsQueue) (total : Nat)
    (info : BlockVals) (p : PartitionPlanOut)
    (hq : block_device_info q = .ok info)
    (h : partition_device_plan total info = .ok p) :
    (p.sd_part2_offset_sectors : Int) -
        ((p.sd_part1_offset_sectors : Int) + (p.sd_part1_size_sectors : Int)) =
      (p.sd_part0_size_sectors : Int) -
        (p.sd_part2_alignment_remainder : Int) ∧
    (p.sd_part2_alignment_remainder ≤ p.sd_part0_size_sectors →
      p.sd_part1_offset_sectors + p.sd_part1_size_sectors ≤
        p.sd_part2_offset_sectors) := by
  obtain ⟨-, -, -, hfirst, -⟩ := block_device_info_ok_shape q info hq
  obtain ⟨-, hb, -, h1off, -, hrem, hfix, hoff, -, -⟩ :=
    partition_device_plan_ok_shape total info p h
  have hlt : p.sd_part2_alignment_remainder < info.alignment_boundary_sectors := by
    rw [hrem]
    exact Nat.mod_lt _ (Nat.pos_of_ne_zero hb)
  have habs : p.sd_part1_offset_sectors = info.alignment_boundary_sectors := by
    rw [h1off, hfirst]
  constructor
  · rw [hoff, hfix, habs]
    push_cast [Nat.sub_le_iff_le_add.mp (Nat.sub_le _ _), hlt.le]
    omega
  · intro hle
    rw [hoff, hfix, habs]
    omega

/-- The sysfs readings of concrete scenario 1: a 4 GiB device,
`physical_block_size=512`, unreported `optimal_io_size`. -/
def q_default : SysfsQueue :=
  ⟨some 8388608, some 0, some 0, some 0, some 512⟩

/-- The geometry the reader derives from `q_default`. -/
def info_default : BlockVals := ⟨8388608, 0, 0, 0, 512, 1048576, 2048, 2048⟩

/-- The plan `partition_device` computes on `q_default`. -/
def plan_default : PartitionPlanOut :=
  ⟨2, 2048, 524288, 2, 2046, 526336, 7864318,
   "mklabel msdos mkpart primary fat32 2048s 524288s mkpart primary ext4 526336s 7864318s set 1 boot on set 1 lba on "⟩

/-- C7 amended witness: on the scenario-1 geometry the remainder (2)
equals the label sectors (2), so boot end and root start coincide at
sector 526336 and the entries do not overlap. -/
theorem no_overlap_iff_remainder_le_label_witness :
    ((plan_default.sd_part2_offset_sectors : Int) -
        ((plan_default.sd_part1_offset_sectors : Int) +
          (plan_default.sd_part1_size_sectors : Int)) =
      (plan_default.sd_part0_size_sectors : Int) -
        (plan_default.sd_part2_alignment_remainder : Int) ∧
    (plan_default.sd_part2_alignment_remainder ≤
        plan_default.sd_part0_size_sectors →
      plan_default.sd_part1_offset_sectors +
          plan_default.sd_part1_size_sectors ≤
        plan_default.sd_part2_offset_sectors)) ∧
    plan_default.sd_part1_offset_sectors +
        plan_default.sd_part1_size_sectors ≤
      plan_default.sd_part2_offset_sectors :=
  ⟨no_overlap_iff_remainder_le_label q_default 8388608 info_default
      plan_default (by rfl) (by rfl),
   (no_overlap_iff_remainder_le_label q_default 8388608 info_default
      plan_default (by rfl) (by rfl)).2 (by decide)⟩

/-- C8: the parted script of every plan is exactly the five directives
`mklabel msdos`, `mkpart primary fat32 <offset>s <size>s`,
`mkpart primary ext4 <offset>s <size>s`, `set 1 boot on`, `set 1 lba on`,
in this order, space-joined (with one trailing space), the offsets and
sizes being the plan's sector counts suffixed with `s`. -/
theorem parted_script_five_directives (total : Nat) (info : BlockVals)
    (p : PartitionPlanOut) (h : partition_device_plan total info = .ok p) :
    p.parted_script =
      String.intercalate " "
        ["mklabel msdos",
         "mkpart primary fat32 " ++ toString p.sd_part1_offset_sectors ++
           "s " ++ toString p.sd_part1_size_sectors ++ "s",
         "mkpart primary ext4 " ++ toString p.sd_part2_offset_sectors ++
           "s " ++ toString p.sd_part2_size_sectors ++ "s",
         "set 1 boot on",
         "set 1 lba on"] ++ " " := by
  obtain ⟨-, -, -, -, -, -, -, -, -, hs⟩ :=
    partition_device_plan_ok_shape total info p h
  have hfive : ∀ a b c d e : String,
      String.intercalate " " [a, b, c, d, e] =
        a ++ " " ++ b ++ " " ++ c ++ " " ++ d ++ " " ++ e :=
    fun a b c d e => rfl
  rw [hs, hfive]
  apply String.ext
  simp [String.data_append, List.append_assoc]

/-- C8 witness: the concrete script rendered for the scenario-1 geometry. -/
theorem parted_script_five_directives_witness :
    plan_default.parted_script =
      String.intercalate " "
        ["mklabel msdos",
         "mkpart primary fat32 " ++ toString plan_default.sd_part1_offset_sectors ++
           "s " ++ toString plan_default.sd_part1_size_sectors ++ "s",
         "mkpart primary ext4 " ++ toString plan_default.sd_part2_offset_sectors ++
           "s " ++ toString plan_default.sd_part2_size_sectors ++ "s",
         "set 1 boot on",
         "set 1 lba on"] ++ " " :=
  parted_script_five_directives 8388608 info_default plan_default (by rfl)

/-- The sysfs readings of a device with `physical_block_size=4096` larger
than its alignment boundary (`optimal_io_size=2048`), making the derived
`alignment_boundary_sectors` zero. -/
def q_zero : SysfsQueue :=
  ⟨some 10000000, some 2048, some 0, some 0, some 4096⟩

/-- The geometry the reader derives from `q_zero`: note
`alignment_boundary_sectors = 2048 / 4096 = 0`. -/
def info_zero : BlockVals := ⟨10000000, 2048, 0, 0, 4096, 2048, 0, 0⟩

/-- C9 counterexample: a geometry with `alignment_boundary_sectors = 0` is
NOT treated as invalid — the reader returns it — and the planner then
evaluates its modulo with a zero divisor, aborting the run with a
division-by-zero error rather than a clean rejection. -/
theorem zero_boundary_not_rejected :
    (block_device_info q_zero).toOption.map
        BlockVals.alignment_boundary_sectors = some 0 ∧
    partition_device_run q_zero = .error .zeroDivision :=
  ⟨rfl, rfl⟩

/-- C9 amended: no component validates `alignment_boundary_sectors >= 1`.
For every geometry the reader returns with `alignment_boundary_sectors =
0`, the planning step IS evaluated with a zero divisor and the run fails
with the uncontrolled division-by-zero error, not an invalid-geometry
rejection. -/
theorem zero_boundary_reaches_zero_divisor (q : SysfsQueue)
    (info : BlockVals) (total : Nat)
    (hq : block_device_info q = .ok info)
    (hz : info.alignment_boundary_sectors = 0) :
    partition_device_plan total info = .error .zeroDivision := by
  obtain ⟨-, -, -, -, hp, -⟩ := block_device_info_ok_shape q info hq
  unfold partition_device_plan
  rw [if_neg hp, if_pos hz]

/-- C9 amended witness: the concrete degenerate geometry `info_zero`
reaches the zero-divisor failure. -/
theorem zero_boundary_reaches_zero_divisor_witness :
    partition_device_plan 10000000 info_zero = .error .zeroDivision :=
  zero_boundary_reaches_zero_divisor q_zero info_zero 10000000
    (by rfl) (by rfl)

/-- Replace only the `minimum_io_size` field of a geometry. -/
def set_minimum_io (info : BlockVals) (m : Nat) : BlockVals :=
  ⟨info.size, info.optimal_io_size, m, info.alignment_offset,
   info.physical_block_size, info.alignment_boundary,
   info.alignment_boundary_sectors, info.first_partition_offset_sectors⟩

/-- C10: the geometry read requires `minimum_io_size` to be present and
fails with an error naming it when it is absent (once the files read
before it are present), even though the planning computation never
depends on `minimum_io_size`; by contrast, a missing `alignment_offset`
is not fatal and defaults to 0. -/
theorem minimum_io_required_but_unused :
    (∀ (q : SysfsQueue) (s o : Nat), q.size = some s →
      q.optimal_io_size = some o → q.minimum_io_size = none →
      block_device_info q = .error (.missingField "minimum_io_size")) ∧
    (∀ (info : BlockVals) (m : Nat) (total : Nat),
      partition_device_plan total (set_minimum_io info m) =
        partition_device_plan total info) ∧
    (∀ (q : SysfsQueue) (info : BlockVals), block_device_info q = .ok info →
      q.alignment_offset = none → info.alignment_offset = 0) := by
  refine ⟨?_, ?_, ?_⟩
  · intro q s o hs ho hm
    obtain ⟨qs, qo, qm, qa, qp⟩ := q
    simp only at hs ho hm
    subst hs
    subst ho
    subst hm
    rfl
  · intro info m total
    cases info
    rfl
  · intro q info hq ha
    obtain ⟨-, -, -, -, -, hao⟩ := block_device_info_ok_shape q info hq
    rw [hao, ha]
    rfl

/-- The sysfs readings of a device whose `minimum_io_size` file is
absent. -/
def q_missing_min : SysfsQueue := ⟨some 100, some 0, none, some 0, some 512⟩

/-- The sysfs readings of a device whose `alignment_offset` file is
absent. -/
def q_no_align : SysfsQueue := ⟨some 100, some 0, some 0, none, some 512⟩

/-- The geometry the reader derives from `q_no_align`. -/
def info_no_align : BlockVals := ⟨100, 0, 0, 0, 512, 1048576, 2048, 2048⟩

/-- C10 witness: on concrete inputs — the read fails exactly on the
missing `minimum_io_size`; replacing `minimum_io_size` by 77 leaves the
plan unchanged; and a missing `alignment_offset` defaults to 0. -/
theorem minimum_io_required_but_unused_witness :
    block_device_info q_missing_min =
      .error (.missingField "minimum_io_size") ∧
    partition_device_plan 100 (set_minimum_io info_small 77) =
      partition_device_plan 100 info_small ∧
    info_no_align.alignment_offset = 0 :=
  ⟨minimum_io_required_but_unused.1 q_missing_min 100 0 rfl rfl rfl,
   minimum_io_required_but_unused.2.1 info_small 77 100,
   minimum_io_required_but_unused.2.2 q_no_align info_no_align rfl rfl⟩
